import Mathlib

/-!
Verification of the FFI header `libp2p-ffi/libp2p_ffi.h` of repository
posix4e/bar123. The header is a declarations-only C boundary over an unseen
peer-to-peer node implementation. We embed the declaration surface as data
(C types, struct definitions, function declarations) and, where a claim is
about behaviour of the absent implementation, model that behaviour from the
specification text.
-/

namespace LibP2PFFI

/-- The C types appearing in the header: `void`, `bool`, `char`, `uint8_t`,
`uint16_t`, `uintptr_t`, pointers (recording whether the pointee is
`const`-qualified), references to a named struct, and function-pointer types
of one or two parameters — the two arities the header uses. -/
inductive CType where
  | void
  | boolT
  | charT
  | uint8T
  | uint16T
  | uintptrT
  | ptr (constPointee : Bool) (pointee : CType)
  | structRef (name : String)
  | funPtr1 (param ret : CType)
  | funPtr2 (param1 param2 ret : CType)
deriving DecidableEq, Repr

/-- A named, typed slot: used both for function parameters and struct fields. -/
structure CParam where
  name : String
  type : CType
deriving DecidableEq, Repr

/-- A C struct definition: name and ordered field list. -/
structure CStructDef where
  name : String
  fields : List CParam
deriving DecidableEq, Repr

/-- A C function declaration: name, ordered parameter list, return type. -/
structure CFunDecl where
  name : String
  params : List CParam
  ret : CType
deriving DecidableEq, Repr

/-- `typedef struct NodeInner NodeInner;` — declared, never defined. -/
def forwardDeclaredTypes : List String := [("NodeInner")]

/-- `struct P2PNode \x7b struct NodeInner *inner; \x7d` -/
def P2PNode_def : CStructDef :=
  ⟨("P2PNode"), [⟨("inner"), .ptr false (.structRef ("NodeInner"))⟩]⟩

/-- `struct P2PMessage \x7b const char *peer_id; const char *topic; const char *data; uintptr_t data_len; \x7d` -/
def P2PMessage_def : CStructDef :=
  ⟨("P2PMessage"),
   [⟨("peer_id"), .ptr true .charT⟩,
    ⟨("topic"), .ptr true .charT⟩,
    ⟨("data"), .ptr true .charT⟩,
    ⟨("data_len"), .uintptrT⟩]⟩

/-- The struct definitions the header contains. -/
def headerStructDefs : List CStructDef := [P2PNode_def, P2PMessage_def]

/-- `typedef void (*MessageCallback)(const struct P2PMessage*);` -/
def MessageCallback : CType :=
  .funPtr1 (.ptr true (.structRef ("P2PMessage"))) .void

/-- `typedef void (*PeerCallback)(const char*, bool);` -/
def PeerCallback : CType :=
  .funPtr2 (.ptr true .charT) .boolT .void

/-- The type `struct P2PNode *`. -/
def P2PNodePtr : CType := .ptr false (.structRef ("P2PNode"))

/-- `struct P2PNode *p2p_node_create(void);` -/
def p2p_node_create_decl : CFunDecl :=
  ⟨("p2p_node_create"), [], P2PNodePtr⟩

/-- `void p2p_node_destroy(struct P2PNode *node);` -/
def p2p_node_destroy_decl : CFunDecl :=
  ⟨("p2p_node_destroy"), [⟨("node"), P2PNodePtr⟩], .void⟩

/-- `bool p2p_node_initialize(struct P2PNode *node);` -/
def p2p_node_initialize_decl : CFunDecl :=
  ⟨("p2p_node_initialize"), [⟨("node"), P2PNodePtr⟩], .boolT⟩

/-- `bool p2p_node_start_listening(struct P2PNode *node, uint16_t port);` -/
def p2p_node_start_listening_decl : CFunDecl :=
  ⟨("p2p_node_start_listening"), [⟨("node"), P2PNodePtr⟩, ⟨("port"), .uint16T⟩], .boolT⟩

/-- `bool p2p_node_join_room(struct P2PNode *node, const char *room_id);` -/
def p2p_node_join_room_decl : CFunDecl :=
  ⟨("p2p_node_join_room"), [⟨("node"), P2PNodePtr⟩, ⟨("room_id"), .ptr true .charT⟩], .boolT⟩

/-- `bool p2p_node_send_message(struct P2PNode *node, const uint8_t *data, uintptr_t data_len);` -/
def p2p_node_send_message_decl : CFunDecl :=
  ⟨("p2p_node_send_message"),
   [⟨("node"), P2PNodePtr⟩, ⟨("data"), .ptr true .uint8T⟩, ⟨("data_len"), .uintptrT⟩], .boolT⟩

/-- `void p2p_set_message_callback(MessageCallback callback);` -/
def p2p_set_message_callback_decl : CFunDecl :=
  ⟨("p2p_set_message_callback"), [⟨("callback"), MessageCallback⟩], .void⟩

/-- `void p2p_set_peer_callback(PeerCallback callback);` -/
def p2p_set_peer_callback_decl : CFunDecl :=
  ⟨("p2p_set_peer_callback"), [⟨("callback"), PeerCallback⟩], .void⟩

/-- `bool p2p_send_history_sync(struct P2PNode *node, const char *entries_json, const char *device_id);` -/
def p2p_send_history_sync_decl : CFunDecl :=
  ⟨("p2p_send_history_sync"),
   [⟨("node"), P2PNodePtr⟩, ⟨("entries_json"), .ptr true .charT⟩, ⟨("device_id"), .ptr true .charT⟩],
   .boolT⟩

/-- `const char *p2p_get_peer_id(struct P2PNode *node);` -/
def p2p_get_peer_id_decl : CFunDecl :=
  ⟨("p2p_get_peer_id"), [⟨("node"), P2PNodePtr⟩], .ptr true .charT⟩

/-- `void p2p_free_string(char *s);` -/
def p2p_free_string_decl : CFunDecl :=
  ⟨("p2p_free_string"), [⟨("s"), .ptr false .charT⟩], .void⟩

/-- `void p2p_init_logging(void);` -/
def p2p_init_logging_decl : CFunDecl :=
  ⟨("p2p_init_logging"), [], .void⟩

/-- All function declarations of the header, in source order. -/
def headerFunDecls : List CFunDecl :=
  [p2p_node_create_decl,
   p2p_node_destroy_decl,
   p2p_node_initialize_decl,
   p2p_node_start_listening_decl,
   p2p_node_join_room_decl,
   p2p_node_send_message_decl,
   p2p_set_message_callback_decl,
   p2p_set_peer_callback_decl,
   p2p_send_history_sync_decl,
   p2p_get_peer_id_decl,
   p2p_free_string_decl,
   p2p_init_logging_decl]

/-- A pointer-to-`char` type, `const`-qualified or not. -/
def isStringPtr : CType → Bool
  | .ptr _ .charT => true
  | _ => false

/-- Whether a type is one of the two callback typedefs of the header. -/
def isCallbackType (t : CType) : Bool :=
  t == MessageCallback || t == PeerCallback

/-- A value position whose type is the named struct itself (not behind a
pointer), which would expose that struct by value. -/
def usesStructByValue : CType → String → Bool
  | .structRef m, n => m == n
  | _, _ => false

/-- The field list of the named struct, when the header defines it. -/
def structFields (n : String) : Option (List CParam) :=
  (headerStructDefs.find? (fun s => s.name == n)).map CStructDef.fields

/-- C simple-assignment compatibility between the pointer types of this header
(C11 6.5.16.1): the target pointee type must equal the source pointee type and
carry every qualifier of it, so a pointer to `const` pointee is not acceptable
where a pointer to non-`const` pointee is expected. -/
def ptrAssignable : CType → CType → Bool
  | .ptr cs ps, .ptr ct pt => ps == pt && (!cs || ct)
  | a, b => a == b

/-- Discarding the `const` qualifier of a pointee (the effect of a cast from
`const char *` to `char *`). -/
def stripPointeeConst : CType → CType
  | .ptr _ t => .ptr false t
  | t => t

/-- A `Nat` is representable as a C `uint16_t` value. -/
def representableUint16 (v : Nat) : Bool :=
  decide (v < 2 ^ 16)

/-- The external contract as the specification lists it, section 6: twelve
functions, each with its name, the types of its parameters in order, and its
return type. Written from the words of the spec (node handle, `port`,
`room_id` string, `data` bytes with length, callback, `entries_json` and
`device_id` strings, owned string result, string to free), to be compared
with the declaration list embedded from the source header. -/
def specListedContract : List (String × List CType × CType) :=
  [(("p2p_node_create"), [], P2PNodePtr),
   (("p2p_node_destroy"), [P2PNodePtr], .void),
   (("p2p_node_initialize"), [P2PNodePtr], .boolT),
   (("p2p_node_start_listening"), [P2PNodePtr, .uint16T], .boolT),
   (("p2p_node_join_room"), [P2PNodePtr, .ptr true .charT], .boolT),
   (("p2p_node_send_message"), [P2PNodePtr, .ptr true .uint8T, .uintptrT], .boolT),
   (("p2p_set_message_callback"), [MessageCallback], .void),
   (("p2p_set_peer_callback"), [PeerCallback], .void),
   (("p2p_send_history_sync"), [P2PNodePtr, .ptr true .charT, .ptr true .charT], .boolT),
   (("p2p_get_peer_id"), [P2PNodePtr], .ptr true .charT),
   (("p2p_free_string"), [.ptr false .charT], .void),
   (("p2p_init_logging"), [], .void)]

/-- Modelled from the spec: the node implementation behind the header is not
in the repository. Section 3 of the spec gives the lifecycle — "create before
any other operation; destroy exactly once; never use after destroy" — so a
modelled node is freshly created, ready (after `p2p_node_initialize`
succeeded), or destroyed. -/
inductive NodeState where
  | created
  | ready
  | destroyed
deriving DecidableEq, Repr

/-- The node operations of the header that act on an existing node, with the
arguments visible at the boundary. Bytes are `Fin 256`, the port is a
`uint16_t` value. -/
inductive NodeOp where
  | init
  | startListening (port : Fin 65536)
  | joinRoom (room : String)
  | sendMessage (data : List (Fin 256))
  | sendHistorySync (entries device : String)
  | getPeerId
deriving DecidableEq, Repr

/-- An operation outcome at the boundary: a `bool`, or a nullable string. -/
inductive OpResult where
  | boolRes (ok : Bool)
  | strRes (s : Option String)
deriving DecidableEq, Repr

/-- The failure value of each operation: `false` for the `bool`-returning
operations, the null pointer for `p2p_get_peer_id`. -/
def failureValue : NodeOp → OpResult
  | .getPeerId => .strRes none
  | _ => .boolRes false

/-- Modelled from the spec: the peer identifier the modelled node reports. -/
def modelPeerId : String := "QmModelPeer"

/-- Modelled from the spec: whether an operation is accepted in a given
lifecycle state. Section 8 requires that calling any node operation before
`initialize` or after `destroy` is rejected; `p2p_node_initialize` itself is
accepted exactly on a freshly created node. -/
def opGuard (s : NodeState) (op : NodeOp) : Bool :=
  match op, s with
  | .init, .created => true
  | .init, _ => false
  | _, .ready => true
  | _, _ => false

/-- Modelled from the spec: one boundary call on the modelled node, returning
the successor lifecycle state and the boundary result. A rejected call leaves
the state unchanged and returns the failure value of the operation. -/
def runNodeOp (s : NodeState) (op : NodeOp) : NodeState × OpResult :=
  if opGuard s op then
    match op with
    | .init => (.ready, .boolRes true)
    | .getPeerId => (s, .strRes (some modelPeerId))
    | _ => (s, .boolRes true)
  else
    (s, failureValue op)

/-- Modelled from the spec: `p2p_node_destroy` releases the node; afterwards
the handle is dead whatever the previous state was. -/
def p2p_node_destroy_model : NodeState → NodeState :=
  fun _ => .destroyed

/-- Modelled from the spec: the process-wide callback registration state.
Section 3 describes callbacks as "function references registered globally"
with "a process-wide single registration per callback kind", so the state is
one slot per kind; a callback value is an abstract function-pointer
identifier, and an empty slot is the initial, never-registered state. -/
structure CallbackState where
  message_slot : Option Nat
  peer_slot : Option Nat
deriving DecidableEq, Repr

/-- Modelled from the spec: `p2p_set_message_callback` stores the given
callback in the single message slot, overwriting whatever was there. -/
def p2p_set_message_callback_model (cb : Nat) (st : CallbackState) : CallbackState :=
  { st with message_slot := some cb }

/-- Modelled from the spec: `p2p_set_peer_callback` stores the given callback
in the single peer slot, overwriting whatever was there. -/
def p2p_set_peer_callback_model (cb : Nat) (st : CallbackState) : CallbackState :=
  { st with peer_slot := some cb }

/-- A registration call: which setter was called and with which callback. -/
inductive RegEvent where
  | msg (cb : Nat)
  | peer (cb : Nat)
deriving DecidableEq, Repr

/-- Apply one registration call to the callback state. -/
def applyReg (st : CallbackState) (e : RegEvent) : CallbackState :=
  match e with
  | .msg cb => p2p_set_message_callback_model cb st
  | .peer cb => p2p_set_peer_callback_model cb st

/-- Apply a sequence of registration calls in order. -/
def applyRegs (st : CallbackState) (es : List RegEvent) : CallbackState :=
  es.foldl applyReg st

/-- A numeric (error-code-like) return type: the header has none. -/
def isNumericCode : CType → Bool
  | .uint8T => true
  | .uint16T => true
  | .uintptrT => true
  | _ => false

/-- Claim C1: the externally observable contract of the header is exactly the
twelve listed functions — name, parameter type list and return type of every
declaration match the list the spec gives, and nothing else is declared. -/
theorem declared_contract_matches_spec_list :
    headerFunDecls.map (fun d => (d.name, d.params.map CParam.type, d.ret))
      = specListedContract := by
  rfl

/-- Claim C2, counterexample: `p2p_node_destroy` is a declared function whose
return type is `void`, which is neither `bool` nor a string pointer, so not
every declared function returns `bool` or a nullable string. -/
theorem destroy_returns_void_not_bool_or_string :
    p2p_node_destroy_decl ∈ headerFunDecls ∧
    p2p_node_destroy_decl.ret ≠ CType.boolT ∧
    isStringPtr p2p_node_destroy_decl.ret = false := by
  decide

/-- Claim C2 as amended: every declared function returns `bool`, a nullable
string pointer, `void`, or a nullable node pointer, and no declared function
returns a numeric error code. -/
theorem return_types_bool_string_void_or_node :
    (headerFunDecls.all fun d =>
        d.ret == CType.boolT || isStringPtr d.ret ||
        d.ret == CType.void || d.ret == P2PNodePtr) = true ∧
    (headerFunDecls.all fun d => !isNumericCode d.ret) = true := by
  decide

/-- Claim C3: in the modelled implementation, any node operation invoked on a
destroyed node, or invoked before `p2p_node_initialize` has succeeded (other
than the initialize call itself), is rejected: the state is unchanged and the
result is the failure value of the operation, `false` or the null string. -/
theorem node_ops_rejected_before_init_or_after_destroy
    (s : NodeState) (op : NodeOp)
    (h : s = NodeState.destroyed ∨ (s = NodeState.created ∧ op ≠ NodeOp.init)) :
    runNodeOp s op = (s, failureValue op) := by
  rcases h with h | ⟨hs, hop⟩
  · subst h
    cases op <;> simp [runNodeOp, opGuard, failureValue]
  · subst hs
    cases op <;> simp_all [runNodeOp, opGuard, failureValue]

/-- Witness for claim C3: `p2p_get_peer_id` on a destroyed node yields the
null string and leaves the state destroyed. -/
theorem node_ops_rejected_witness :
    runNodeOp NodeState.destroyed NodeOp.getPeerId
      = (NodeState.destroyed, failureValue NodeOp.getPeerId) :=
  node_ops_rejected_before_init_or_after_destroy
    NodeState.destroyed NodeOp.getPeerId (Or.inl rfl)

/-- Claim C4: after any prior sequence of registration calls, registering a
message callback `f` and then `g` leaves exactly `g` in the single message
slot, and likewise for the peer callback — registration replaces, it never
accumulates. -/
theorem callback_registration_replaces_prior
    (st : CallbackState) (es : List RegEvent) (f g : Nat) :
    (applyRegs st (es ++ [RegEvent.msg f, RegEvent.msg g])).message_slot = some g ∧
    (applyRegs st (es ++ [RegEvent.peer f, RegEvent.peer g])).peer_slot = some g := by
  constructor <;>
    simp [applyRegs, List.foldl_append, applyReg,
      p2p_set_message_callback_model, p2p_set_peer_callback_model]

/-- Claim C5: the node state type `NodeInner` is forward-declared but never
defined in the header, so the interface exposes no field of the internal node
state; no declaration passes or returns `NodeInner` by value, and no defined
struct holds it by value — the handle struct holds only a pointer to it. -/
theorem node_state_type_abstract :
    ("NodeInner") ∈ forwardDeclaredTypes ∧
    structFields ("NodeInner") = none ∧
    P2PNode_def.fields = [⟨("inner"), CType.ptr false (.structRef ("NodeInner"))⟩] ∧
    (headerFunDecls.all fun d =>
        !usesStructByValue d.ret ("NodeInner") &&
        d.params.all fun p => !usesStructByValue p.type ("NodeInner")) = true ∧
    (headerStructDefs.all fun s =>
        s.fields.all fun fl => !usesStructByValue fl.type ("NodeInner")) = true := by
  decide

/-- Claim C6: a delivered message is a view of exactly four parts — peer
identifier string, topic string, byte payload pointer and payload length —
and the message callback receives a pointer to one such `P2PMessage`. -/
theorem message_is_four_part_view :
    P2PMessage_def.fields.map (fun fl => (fl.name, fl.type))
      = [(("peer_id"), CType.ptr true .charT),
         (("topic"), CType.ptr true .charT),
         (("data"), CType.ptr true .charT),
         (("data_len"), CType.uintptrT)] ∧
    MessageCallback = CType.funPtr1 (.ptr true (.structRef ("P2PMessage"))) .void ∧
    p2p_set_message_callback_decl.params.map CParam.type = [MessageCallback] := by
  refine ⟨rfl, rfl, rfl⟩

/-- Claim C7: callback registration is process-wide — each setter takes only
the callback, no node handle; the peer callback receives a peer id string and
a `bool` flag; the only declared functions mentioning a callback type are the
two setters (no unregistration entry point); and in the modelled global
state each setter writes its own single slot and leaves the other unchanged. -/
theorem callbacks_registered_globally :
    p2p_set_message_callback_decl.params.map CParam.type = [MessageCallback] ∧
    p2p_set_peer_callback_decl.params.map CParam.type = [PeerCallback] ∧
    PeerCallback = CType.funPtr2 (.ptr true .charT) .boolT .void ∧
    ((headerFunDecls.filter fun d =>
        d.params.any fun p => isCallbackType p.type).map CFunDecl.name
      = [("p2p_set_message_callback"), ("p2p_set_peer_callback")]) ∧
    ((p2p_set_message_callback_decl.params ++ p2p_set_peer_callback_decl.params).all
        fun p => p.type != P2PNodePtr) = true ∧
    (∀ st cb, (p2p_set_message_callback_model cb st).peer_slot = st.peer_slot) ∧
    (∀ st cb, (p2p_set_peer_callback_model cb st).message_slot = st.message_slot) := by
  refine ⟨rfl, rfl, rfl, by decide, by decide, fun st cb => rfl, fun st cb => rfl⟩

/-- Claim C8, counterexample: `p2p_get_peer_id` returns `const char *`, while
`p2p_free_string` takes `char *`; under the C rules for simple assignment the
`const`-qualified pointer is not acceptable as that argument without a cast. -/
theorem peer_id_return_not_assignable_to_free_arg :
    p2p_get_peer_id_decl.ret = CType.ptr true .charT ∧
    p2p_free_string_decl.params.map CParam.type = [CType.ptr false .charT] ∧
    ptrAssignable p2p_get_peer_id_decl.ret (CType.ptr false .charT) = false := by
  decide

/-- Claim C8 as amended: the non-null result of `p2p_get_peer_id` is an owned
char-pointer string and `p2p_free_string` takes a char-pointer string, so the
returned string is released through `p2p_free_string`, but only after the
`const` qualifier of the pointee is cast away. -/
theorem peer_id_string_freeable_after_const_cast :
    isStringPtr p2p_get_peer_id_decl.ret = true ∧
    p2p_free_string_decl.params.map CParam.type = [CType.ptr false .charT] ∧
    ptrAssignable (stripPointeeConst p2p_get_peer_id_decl.ret)
      (CType.ptr false .charT) = true := by
  decide

/-- Claim C9: the port parameter of `p2p_node_start_listening` is a
`uint16_t`, and every value representable in that type is at most 65535,
so no larger port can be requested through the interface. -/
theorem listening_port_is_uint16 (v : Nat)
    (h : representableUint16 v = true) :
    p2p_node_start_listening_decl.params.map CParam.type
      = [P2PNodePtr, CType.uint16T] ∧ v ≤ 65535 := by
  simp only [representableUint16, decide_eq_true_eq] at h
  exact ⟨rfl, by omega⟩

/-- Witness for claim C9: port 8080 is representable and bounded by 65535. -/
theorem listening_port_witness :
    representableUint16 8080 = true ∧
    (p2p_node_start_listening_decl.params.map CParam.type
      = [P2PNodePtr, CType.uint16T] ∧ 8080 ≤ 65535) :=
  ⟨by decide, listening_port_is_uint16 8080 (by decide)⟩

/-- Claim C10: `p2p_node_send_message` takes exactly a node handle, a byte
buffer and a length — no string parameter at all, hence no room or topic can
be selected at the call site — while every received `P2PMessage` does carry a
`topic` field. -/
theorem send_message_has_no_topic_parameter :
    p2p_node_send_message_decl.params.map (fun p => (p.name, p.type))
      = [(("node"), P2PNodePtr),
         (("data"), CType.ptr true .uint8T),
         (("data_len"), CType.uintptrT)] ∧
    (p2p_node_send_message_decl.params.all fun p => !isStringPtr p.type) = true ∧
    (P2PMessage_def.fields.map CParam.name).contains ("topic") = true := by
  decide

end LibP2PFFI
